import Mathlib

/-!
Verification of the logistics data-warehouse pipeline (src/logistics.py).

The repository is a single Airflow DAG definition: a GCS prefix-existence
sensor, four Dataproc Hive job submissions, a gsutil archive move, and a
linear dependency chain wiring them together.  The configuration (task
parameters, query bodies, the `>>` chain) is embedded here directly from
the source.  The execution engine itself (the step-chain executor, the
poke-style condition poller, the archiver semantics, and the external
Hive/storage effects) is not part of the repository's own code, so those
components are modelled from the specification, as marked on each
definition.
-/

/-- Outcome status of one step, as in the spec's ExecutionResult. -/
inductive ExecStatus where
  | ok
  | failed
  | timed_out
  deriving DecidableEq, Repr

/-- Terminal status of a pipeline run, as in the spec's PipelineRun. -/
inductive RunStatus where
  | pending
  | running
  | succeeded
  | failed
  | timed_out
  deriving DecidableEq, Repr

/-- Kind of a step, as in the spec's Step data model. -/
inductive StepKind where
  | sense
  | submit_job
  | archive
  deriving DecidableEq, Repr

/-- The six task identifiers declared in src/logistics.py. -/
inductive TaskId where
  | sense_logistics_file
  | create_hive_database
  | create_hive_table
  | create_partitioned_table
  | set_hive_properties_and_load_partitioned
  | archive_processed_file
  deriving DecidableEq, Repr, Fintype

/-- `default_args` dictionary, src/logistics.py lines 8-15. -/
structure DefaultArgs where
  owner : String
  depends_on_past : Bool
  email_on_failure : Bool
  email_on_retry : Bool
  retries : Nat
  retry_delay_minutes : Nat
  deriving DecidableEq, Repr

def default_args : DefaultArgs :=
  { owner := "airflow"
    depends_on_past := false
    email_on_failure := false
    email_on_retry := false
    retries := 0
    retry_delay_minutes := 1 }

/-- The DAG declaration, src/logistics.py lines 17-24. -/
structure DAGConfig where
  dag_id : String
  description : String
  schedule_interval_days : Nat
  tags : List String
  deriving DecidableEq, Repr

def dag : DAGConfig :=
  { dag_id := "gcsarchive"
    description := "Load logistics data into Hive on GCP Dataproc"
    schedule_interval_days := 1
    tags := ["example"] }

/-- GCSObjectsWithPrefixExistenceSensor configuration (src lines 27-35).
The `pfx` field embeds the sensor's key-prefix keyword argument. -/
structure PrefixExistenceSensor where
  task_id : String
  bucket : String
  pfx : String
  mode : String
  timeout : Nat
  poke_interval : Nat
  deriving DecidableEq, Repr

def sense_logistics_file : PrefixExistenceSensor :=
  { task_id := "sense_logistics_file"
    bucket := "logistics_raw"
    pfx := "input_data/logistics_"
    mode := "poke"
    timeout := 300
    poke_interval := 30 }

/-- The `reference` block of a Dataproc job dictionary. -/
structure JobReference where
  project_id : String
  job_id : String
  deriving DecidableEq, Repr

/-- The `placement` block of a Dataproc job dictionary. -/
structure JobPlacement where
  cluster_name : String
  deriving DecidableEq, Repr

/-- The `hive_job` block: the list of query strings. -/
structure HiveJob where
  queries : List String
  deriving DecidableEq, Repr

/-- A Dataproc job dictionary as built in src/logistics.py. -/
structure DataprocJob where
  reference : JobReference
  placement : JobPlacement
  hive_job : HiveJob
  deriving DecidableEq, Repr

/-- DataprocSubmitJobOperator configuration. -/
structure DataprocSubmitJobOperator where
  task_id : String
  job : DataprocJob
  region : String
  project_id : String
  deriving DecidableEq, Repr

def create_hive_database : DataprocSubmitJobOperator :=
  { task_id := "create_hive_database"
    job :=
      { reference := { project_id := "harshapersonal", job_id := "create-hive-db" }
        placement := { cluster_name := "cluster-c27e" }
        hive_job := { queries := ["CREATE DATABASE IF NOT EXISTS logistics_db;"] } }
    region := "us-central1"
    project_id := "harshapersonal" }

def create_hive_table_query : String :=
  "CREATE EXTERNAL TABLE IF NOT EXISTS logistics_db.logistics_data (\n" ++
  "    delivery_id INT,\n    \x60date\x60 STRING,\n    origin STRING,\n" ++
  "    destination STRING,\n    vehicle_type STRING,\n    delivery_status STRING,\n" ++
  "    delivery_time STRING\n)\nROW FORMAT DELIMITED\n" ++
  "FIELDS TERMINATED BY \x27,\x27\nSTORED AS TEXTFILE\n" ++
  "LOCATION \x27gs://logistics_raw/input_data/\x27\n" ++
  "tblproperties(\x27skip.header.line.count\x27=\x271\x27);"

def create_hive_table : DataprocSubmitJobOperator :=
  { task_id := "create_hive_table"
    job :=
      { reference := { project_id := "harshapersonal", job_id := "create-hive-table" }
        placement := { cluster_name := "cluster-c27e" }
        hive_job := { queries := [create_hive_table_query] } }
    region := "us-central1"
    project_id := "harshapersonal" }

def create_partitioned_table_query : String :=
  "CREATE TABLE IF NOT EXISTS logistics_db.logistics_data_partitioned (\n" ++
  "    delivery_id INT,\n    origin STRING,\n    destination STRING,\n" ++
  "    vehicle_type STRING,\n    delivery_status STRING,\n    delivery_time STRING\n)\n" ++
  "PARTITIONED BY (\x60date\x60 STRING)\nSTORED AS TEXTFILE;"

def create_partitioned_table : DataprocSubmitJobOperator :=
  { task_id := "create_partitioned_table"
    job :=
      { reference := { project_id := "harshapersonal", job_id := "create-partitioned-table" }
        placement := { cluster_name := "cluster-c27e" }
        hive_job := { queries := [create_partitioned_table_query] } }
    region := "us-central1"
    project_id := "harshapersonal" }

def load_partitioned_query : String :=
  "SET hive.exec.dynamic.partition = true;\n" ++
  "SET hive.exec.dynamic.partition.mode = nonstrict;\n\n" ++
  "INSERT INTO logistics_db.logistics_data_partitioned PARTITION(\x60date\x60)\n" ++
  "SELECT delivery_id, origin, destination, vehicle_type, delivery_status, " ++
  "delivery_time, \x60date\x60\nFROM logistics_db.logistics_data;"

def set_hive_properties_and_load_partitioned : DataprocSubmitJobOperator :=
  { task_id := "set_hive_properties_and_load_partitioned"
    job :=
      { reference := { project_id := "harshapersonal", job_id := "set-hive-properties" }
        placement := { cluster_name := "cluster-c27e" }
        hive_job := { queries := [load_partitioned_query] } }
    region := "us-central1"
    project_id := "harshapersonal" }

/-- BashOperator configuration (src lines 161-165). -/
structure BashOperator where
  task_id : String
  bash_command : String
  deriving DecidableEq, Repr

def archive_processed_file : BashOperator :=
  { task_id := "archive_processed_file"
    bash_command :=
      "gsutil -m mv gs://logistics_raw/input_data/logistics_*.csv gs://logistics_archive/" }

/-- The four Dataproc job-submission operators, in their configured order. -/
def jobOps : List DataprocSubmitJobOperator :=
  [create_hive_database, create_hive_table, create_partitioned_table,
   set_hive_properties_and_load_partitioned]

/-- The step kind of each task, determined by its operator class:
the GCS existence sensor is a `sense` step, each DataprocSubmitJobOperator
is a `submit_job` step, and the gsutil-move BashOperator is the `archive`
step. -/
def kindOf : TaskId → StepKind
  | .sense_logistics_file => .sense
  | .create_hive_database => .submit_job
  | .create_hive_table => .submit_job
  | .create_partitioned_table => .submit_job
  | .set_hive_properties_and_load_partitioned => .submit_job
  | .archive_processed_file => .archive

/-- The dependency edges declared by the `>>` chain on src line 168. -/
def depEdges : List (TaskId × TaskId) :=
  [(.sense_logistics_file, .create_hive_database),
   (.create_hive_database, .create_hive_table),
   (.create_hive_table, .create_partitioned_table),
   (.create_partitioned_table, .set_hive_properties_and_load_partitioned),
   (.set_hive_properties_and_load_partitioned, .archive_processed_file)]

/-- Downstream tasks of `t` according to the declared edges. -/
def successors (t : TaskId) : List TaskId :=
  (depEdges.filter (fun e => decide (e.1 = t))).map (fun e => e.2)

/-- Upstream tasks of `t` according to the declared edges. -/
def predecessors (t : TaskId) : List TaskId :=
  (depEdges.filter (fun e => decide (e.2 = t))).map (fun e => e.1)

/-- The execution order induced by following the unique successor edge,
starting from `t`, for at most `fuel` hops. -/
def chainFrom (fuel : Nat) (t : TaskId) : List TaskId :=
  match fuel with
  | 0 => [t]
  | f + 1 =>
    match successors t with
    | [] => [t]
    | next :: _ => t :: chainFrom f next

/-- Outcome of one existence check during polling: the condition holds,
it does not hold yet, or the check itself failed transiently. -/
inductive CheckOutcome where
  | sat
  | unsat
  | err
  deriving DecidableEq, Repr

/-- Whether a check outcome reports the condition as satisfied. -/
def CheckOutcome.isSat : CheckOutcome → Bool
  | .sat => true
  | _ => false

/-- Modelled from the spec: the Condition Poller's poke loop (spec 4.1) is
not code of this repository, only its configuration is.  `check s` is the
read-only existence check evaluated at elapsed time `s`; the loop checks
at times `k * interval`, returns `ok` on the first positive check, and,
once the fuel covering the timeout budget is exhausted, returns
`timed_out` together with the elapsed time. -/
def pollLoop (check : Nat → Bool) (interval : Nat) : Nat → Nat → ExecStatus × Nat
  | k, fuel =>
    if check (k * interval) then (.ok, k * interval)
    else
      match fuel with
      | 0 => (.timed_out, k * interval)
      | f + 1 => pollLoop check interval (k + 1) f

/-- Modelled from the spec: `await(condition) -> ExecutionResult` (spec
4.1), instantiated with a sensor's configured poke interval and timeout;
the fuel `timeout / poke_interval` makes the last check happen at the
timeout itself. -/
def pollAwait (c : PrefixExistenceSensor) (check : Nat → Bool) : ExecStatus × Nat :=
  pollLoop check c.poke_interval 0 (c.timeout / c.poke_interval)

/-- Modelled from the spec: the poke loop over fallible checks.  A check
reporting `sat` returns `ok`; both `unsat` and a transient check failure
`err` continue polling and merely consume timeout budget (spec 4.1). -/
def pollLoopF (check : Nat → CheckOutcome) (interval : Nat) : Nat → Nat → ExecStatus × Nat
  | k, 0 =>
    match check (k * interval) with
    | .sat => (.ok, k * interval)
    | .unsat => (.timed_out, k * interval)
    | .err => (.timed_out, k * interval)
  | k, fuel + 1 =>
    match check (k * interval) with
    | .sat => (.ok, k * interval)
    | .unsat => pollLoopF check interval (k + 1) fuel
    | .err => pollLoopF check interval (k + 1) fuel

/-- Modelled from the spec: `await` over fallible checks. -/
def pollAwaitF (c : PrefixExistenceSensor) (check : Nat → CheckOutcome) : ExecStatus × Nat :=
  pollLoopF check c.poke_interval 0 (c.timeout / c.poke_interval)

/-- Modelled from the spec: the Step Chain Executor's terminal status
(spec 4.3): given the ExecutionResult statuses the steps would produce,
the run succeeds when all are `ok` and otherwise halts with the first
non-`ok` status. -/
def runChain : List ExecStatus → RunStatus
  | [] => .succeeded
  | .ok :: rest => runChain rest
  | .failed :: _ => .failed
  | .timed_out :: _ => .timed_out

/-- Modelled from the spec: how many steps the executor invokes.  Each
invoked step that returns `ok` lets the next one run; a non-`ok` step is
the last one invoked. -/
def invokedCount : List ExecStatus → Nat
  | [] => 0
  | .ok :: rest => invokedCount rest + 1
  | _ :: _ => 1

/-- Number of times the executor calls the handler of step `i` during one
run: once when the run reaches it, never otherwise. -/
def stepCalls (outcomes : List ExecStatus) (i : Nat) : Nat :=
  if i < invokedCount outcomes then 1 else 0

/-- The terminal run status a non-`ok` step status maps to (spec section
3: `failed` or `timed_out` matching the first non-`ok` step). -/
def statusToRun : ExecStatus → RunStatus
  | .ok => .succeeded
  | .failed => .failed
  | .timed_out => .timed_out

/-- Effective retry count of each task: no operator in src/logistics.py
passes a retries argument, so every task inherits `default_args.retries`. -/
def taskRetries : TaskId → Nat := fun _ => default_args.retries

/-- The sensor's object-name condition (src lines 27-35): an object of
bucket logistics_raw whose name starts with the configured prefix. -/
def senseMatches (n : String) : Bool :=
  sense_logistics_file.pfx.data.isPrefixOf n.data

/-- The constant parts of the archive step's gsutil source pattern
`gs://logistics_raw/input_data/logistics_*.csv` (src line 163). -/
def archivePatPre : String := "input_data/logistics_"

def archivePatSuf : String := ".csv"

/-- Whether an object name of bucket logistics_raw matches the archive
step's source pattern: the literal prefix, then the `*` wildcard (any
characters within the path component, no slash), then the `.csv`
suffix. -/
def archiveSrcMatches (n : String) : Bool :=
  archivePatPre.data.isPrefixOf n.data &&
  archivePatSuf.data.isSuffixOf n.data &&
  decide (archivePatPre.length + archivePatSuf.length ≤ n.length) &&
  ((n.data.drop archivePatPre.length).take
      (n.length - archivePatPre.length - archivePatSuf.length)).all
    (fun c => decide (c ≠ '/'))

/-- Object names present in the raw bucket and the archive bucket. -/
structure GcsState where
  raw : List String
  archive : List String
  deriving DecidableEq, Repr

/-- Modelled from the spec: the Archiver (spec 4.4) is not code of this
repository; only its gsutil configuration is.  `archive` moves every
raw-bucket object matching the source pattern to the archive bucket,
preserving names, and reports `ok` with the number of objects moved;
zero matches are a success with zero objects moved. -/
def archiveRun (st : GcsState) : GcsState × ExecStatus × Nat :=
  let moved := st.raw.filter archiveSrcMatches
  ({ raw := st.raw.filter (fun n => !archiveSrcMatches n)
     archive := st.archive ++ moved },
   .ok, moved.length)

/-- The external Hive/warehouse state the job-submission steps act on:
which databases, external tables and partitioned tables exist, how many
rows the raw CSV files visible through logistics_db.logistics_data hold,
and how many rows logistics_db.logistics_data_partitioned holds. -/
structure HiveState where
  databases : List String
  tables : List String
  partTables : List String
  sourceRows : Nat
  partRows : Nat
  deriving DecidableEq, Repr

/-- Modelled from the spec: external effect of the create_hive_database
step's query "CREATE DATABASE IF NOT EXISTS logistics_db;" — creates the
database only when absent. -/
def createDatabaseEffect (s : HiveState) : HiveState :=
  if "logistics_db" ∈ s.databases then s
  else { s with databases := "logistics_db" :: s.databases }

/-- Modelled from the spec: external effect of the create_hive_table
step's query "CREATE EXTERNAL TABLE IF NOT EXISTS
logistics_db.logistics_data ..." — creates the external table only when
absent; as an external table over the raw bucket it stores no rows of
its own. -/
def createTableEffect (s : HiveState) : HiveState :=
  if "logistics_db.logistics_data" ∈ s.tables then s
  else { s with tables := "logistics_db.logistics_data" :: s.tables }

/-- Modelled from the spec: external effect of the
create_partitioned_table step's query "CREATE TABLE IF NOT EXISTS
logistics_db.logistics_data_partitioned ..." — creates the partitioned
table only when absent. -/
def createPartitionedEffect (s : HiveState) : HiveState :=
  if "logistics_db.logistics_data_partitioned" ∈ s.partTables then s
  else { s with partTables := "logistics_db.logistics_data_partitioned" :: s.partTables }

/-- Modelled from the spec: external effect of the
set_hive_properties_and_load_partitioned step's query "INSERT INTO
logistics_db.logistics_data_partitioned PARTITION(date) SELECT ... FROM
logistics_db.logistics_data;" — an INSERT INTO appends the selected rows
to the partitioned table (it does not overwrite). -/
def loadPartitionedEffect (s : HiveState) : HiveState :=
  { s with partRows := s.partRows + s.sourceRows }

/-- C8: the configured SenseCondition satisfies the data-model invariant:
its poll interval is strictly positive and at most its timeout
(0 < 30 and 30 <= 300). -/
theorem C8_sense_condition_invariant :
    0 < sense_logistics_file.poke_interval ∧
    sense_logistics_file.poke_interval ≤ sense_logistics_file.timeout := by
  decide

/-- C9: every job-submission step targets the same execution site: region
us-central1, placement cluster cluster-c27e, and project harshapersonal
(both as the operator-level project and in the job reference). -/
theorem C9_single_execution_site :
    ∀ op ∈ jobOps,
      op.region = "us-central1" ∧
      op.job.placement.cluster_name = "cluster-c27e" ∧
      op.project_id = "harshapersonal" ∧
      op.job.reference.project_id = "harshapersonal" := by
  decide

/-- C9 witness: the execution-site invariant instantiated at the first
job-submission operator. -/
theorem C9_single_execution_site_witness :
    create_hive_database.region = "us-central1" ∧
    create_hive_database.job.placement.cluster_name = "cluster-c27e" ∧
    create_hive_database.project_id = "harshapersonal" ∧
    create_hive_database.job.reference.project_id = "harshapersonal" :=
  C9_single_execution_site create_hive_database (by decide)

/-- C2: the configured pipeline is a single strict linear chain: following
the declared dependency edges from the sense task visits all six tasks in
the order sense, create database, create table, create partitioned table,
load partitioned, archive; every task has at most one successor and at
most one predecessor (no branching); the chain starts at the sense step,
ends at the archive step, and the four middle steps are job submissions. -/
theorem C2_linear_chain :
    chainFrom 5 .sense_logistics_file =
      [.sense_logistics_file, .create_hive_database, .create_hive_table,
       .create_partitioned_table, .set_hive_properties_and_load_partitioned,
       .archive_processed_file] ∧
    (∀ t : TaskId, (successors t).length ≤ 1 ∧ (predecessors t).length ≤ 1) ∧
    (chainFrom 5 .sense_logistics_file).map kindOf =
      [.sense, .submit_job, .submit_job, .submit_job, .submit_job, .archive] ∧
    predecessors .sense_logistics_file = [] ∧
    successors .archive_processed_file = [] := by
  decide

/-- Helper: a step with a later step invoked must have returned `ok`. -/
theorem invoked_prefix_ok :
    ∀ (outcomes : List ExecStatus) (i : Nat),
      i + 1 < invokedCount outcomes → outcomes[i]? = some .ok := by
  intro outcomes
  induction outcomes with
  | nil => intro i h; simp [invokedCount] at h
  | cons r rest ih =>
    intro i h
    cases r with
    | ok =>
      cases i with
      | zero => simp
      | succ j =>
        have hj : j + 1 < invokedCount rest := by
          simp only [invokedCount] at h
          omega
        simpa using ih j hj
    | failed => simp [invokedCount] at h
    | timed_out => simp [invokedCount] at h

/-- Helper: the run succeeds exactly when every step status is `ok`. -/
theorem runChain_succeeded_iff :
    ∀ outcomes : List ExecStatus,
      runChain outcomes = .succeeded ↔ ∀ r ∈ outcomes, r = .ok := by
  intro outcomes
  induction outcomes with
  | nil => simp [runChain]
  | cons r rest ih =>
    cases r with
    | ok => simp [runChain, ih]
    | failed =>
      simp only [runChain, List.forall_mem_cons]
      constructor
      · intro h; exact absurd h (by decide)
      · intro h; exact absurd h.1 (by decide)
    | timed_out =>
      simp only [runChain, List.forall_mem_cons]
      constructor
      · intro h; exact absurd h (by decide)
      · intro h; exact absurd h.1 (by decide)

/-- Helper: a first non-`ok` step fixes the terminal status and makes
itself the last invoked step. -/
theorem runChain_first_nonok :
    ∀ (outcomes : List ExecStatus) (i : Nat) (s : ExecStatus),
      outcomes[i]? = some s → s ≠ .ok →
      (∀ k, k < i → outcomes[k]? = some .ok) →
      runChain outcomes = statusToRun s ∧ invokedCount outcomes = i + 1 := by
  intro outcomes
  induction outcomes with
  | nil => intro i s h _ _; simp at h
  | cons r rest ih =>
    intro i s h hs hk
    cases i with
    | zero =>
      have hr : r = s := by simpa using h
      subst hr
      cases r with
      | ok => exact absurd rfl hs
      | failed => exact ⟨rfl, rfl⟩
      | timed_out => exact ⟨rfl, rfl⟩
    | succ j =>
      have hr : r = .ok := by
        have := hk 0 (Nat.succ_pos j)
        simpa using this
      subst hr
      have hrest : rest[j]? = some s := by simpa using h
      have hkrest : ∀ k, k < j → rest[k]? = some .ok := by
        intro k hkj
        have := hk (k + 1) (Nat.succ_lt_succ hkj)
        simpa using this
      obtain ⟨h1, h2⟩ := ih j s hrest hs hkrest
      refine ⟨by simpa [runChain] using h1, ?_⟩
      simp only [invokedCount, h2]

/-- C1: the Step Chain Executor never invokes step i+1 unless step i's
ExecutionResult is `ok`; the run's terminal status is `succeeded` iff
every step returned `ok`; and when step i is the first non-`ok` step the
terminal status is `failed` or `timed_out` matching that step's status
and no step after i is invoked. -/
theorem C1_executor_fail_fast (outcomes : List ExecStatus) :
    (∀ i : Nat, i + 1 < invokedCount outcomes → outcomes[i]? = some .ok) ∧
    (runChain outcomes = .succeeded ↔ ∀ r ∈ outcomes, r = .ok) ∧
    (∀ (i : Nat) (s : ExecStatus),
      outcomes[i]? = some s → s ≠ .ok →
      (∀ k, k < i → outcomes[k]? = some .ok) →
      runChain outcomes = statusToRun s ∧ invokedCount outcomes = i + 1) :=
  ⟨invoked_prefix_ok outcomes, runChain_succeeded_iff outcomes,
    fun i s h hs hk => runChain_first_nonok outcomes i s h hs hk⟩

/-- C1 witness: on the concrete status sequence [ok, failed, ok] the run
halts with status `failed` after invoking exactly the first two steps. -/
theorem C1_executor_fail_fast_witness :
    runChain [.ok, .failed, .ok] = .failed ∧
    invokedCount [.ok, .failed, .ok] = 2 :=
  (C1_executor_fail_fast [.ok, .failed, .ok]).2.2 1 .failed (by decide)
    (by decide) (by decide)

/-- C5: no automatic retry anywhere: the configured retry count is zero,
every task inherits that zero retry count, and the executor calls each
step's handler at most once per run. -/
theorem C5_no_retry :
    default_args.retries = 0 ∧
    (∀ t : TaskId, taskRetries t = 0) ∧
    (∀ (outcomes : List ExecStatus) (i : Nat), stepCalls outcomes i ≤ 1) := by
  refine ⟨rfl, fun t => rfl, ?_⟩
  intro outcomes i
  unfold stepCalls
  split <;> omega

set_option maxRecDepth 10000 in
/-- Helper: over the configured sensor, a condition that first holds at
time t < 300 makes `await` return `ok` at the poll boundary 30 * ⌈t/30⌉. -/
theorem pollAwait_ok_eval :
    ∀ t, t < 300 →
      pollAwait sense_logistics_file (fun s => decide (t ≤ s)) =
        (.ok, 30 * ((t + 29) / 30)) := by
  decide

/-- Helper: over the configured sensor, a condition that never holds
makes `await` return `timed_out` at time 300. -/
theorem pollAwait_never :
    pollAwait sense_logistics_file (fun _ => false) = (.timed_out, 300) := by
  decide

/-- C4: with the configured SenseCondition (interval 30, timeout 300):
if the sensed condition first becomes true at a time t < timeout, `await`
returns `ok` at the first poll boundary at or after t (a multiple of 30
that is at least t and less than t + 30); if the condition never becomes
true, `await` returns `timed_out` at exactly the configured timeout. -/
theorem C4_poller_timing (check : Nat → Bool) (t : Nat) :
    (t < sense_logistics_file.timeout → (∀ s, check s = decide (t ≤ s)) →
      pollAwait sense_logistics_file check = (.ok, 30 * ((t + 29) / 30)) ∧
      t ≤ 30 * ((t + 29) / 30) ∧
      30 * ((t + 29) / 30) % 30 = 0 ∧
      30 * ((t + 29) / 30) < t + 30) ∧
    ((∀ s, check s = false) →
      pollAwait sense_logistics_file check = (.timed_out, sense_logistics_file.timeout)) := by
  constructor
  · intro ht hc
    have hch : check = fun s => decide (t ≤ s) := funext hc
    subst hch
    have ht' : t < 300 := ht
    refine ⟨pollAwait_ok_eval t ht', ?_, ?_, ?_⟩ <;> omega
  · intro hc
    have hch : check = fun _ => false := funext hc
    subst hch
    exact pollAwait_never

/-- C4 witness: a condition first true at t = 45 is seen at the boundary
60, and a never-true condition times out at 300. -/
theorem C4_poller_timing_witness :
    pollAwait sense_logistics_file (fun s => decide (45 ≤ s)) = (.ok, 60) ∧
    pollAwait sense_logistics_file (fun _ => false) = (.timed_out, 300) := by
  constructor
  · exact ((C4_poller_timing (fun s => decide (45 ≤ s)) 45).1 (by decide)
      (fun _ => rfl)).1
  · exact (C4_poller_timing (fun _ => false) 0).2 (fun _ => rfl)

/-- Helper: the fallible poke loop behaves exactly like the boolean poke
loop that reads a transient check failure as "not satisfied". -/
theorem pollLoopF_eq (check : Nat → CheckOutcome) (interval : Nat) :
    ∀ fuel k, pollLoopF check interval k fuel =
      pollLoop (fun s => (check s).isSat) interval k fuel := by
  intro fuel
  induction fuel with
  | zero =>
    intro k
    unfold pollLoopF pollLoop
    cases h : check (k * interval) <;> simp [CheckOutcome.isSat, h]
  | succ f ih =>
    intro k
    unfold pollLoopF pollLoop
    cases h : check (k * interval) <;> simp [CheckOutcome.isSat, h, ih]

/-- Helper: the poke loop only ever reports `ok` or `timed_out`. -/
theorem pollLoop_ne_failed (check : Nat → Bool) (interval : Nat) :
    ∀ fuel k, (pollLoop check interval k fuel).1 ≠ .failed := by
  intro fuel
  induction fuel with
  | zero =>
    intro k
    unfold pollLoop
    split <;> simp
  | succ f ih =>
    intro k
    unfold pollLoop
    split
    · simp
    · exact ih (k + 1)

/-- C7: with the configured sensor, a transiently failing existence check
does not abort polling and is not surfaced as a hard error: the fallible
poller coincides with the boolean poller that treats a failed check as
"condition not yet satisfied", and its status is never `failed` (so the
only non-`ok` outcome is `timed_out`). -/
theorem C7_transient_failures (check : Nat → CheckOutcome) :
    (pollAwaitF sense_logistics_file check).1 ≠ .failed ∧
    pollAwaitF sense_logistics_file check =
      pollAwait sense_logistics_file (fun s => (check s).isSat) := by
  have heq : pollAwaitF sense_logistics_file check =
      pollAwait sense_logistics_file (fun s => (check s).isSat) := by
    unfold pollAwaitF pollAwait
    exact pollLoopF_eq check _ _ _
  refine ⟨?_, heq⟩
  rw [heq]
  unfold pollAwait
  exact pollLoop_ne_failed _ _ _ _

/-- C7 witness: a check that errors until time 60 and then reports the
condition still yields `ok` at time 60 and never a `failed` status. -/
theorem C7_transient_failures_witness :
    (pollAwaitF sense_logistics_file
        (fun s => if s < 60 then CheckOutcome.err else CheckOutcome.sat)).1 ≠ .failed ∧
    pollAwaitF sense_logistics_file
        (fun s => if s < 60 then CheckOutcome.err else CheckOutcome.sat) = (.ok, 60) := by
  refine ⟨(C7_transient_failures _).1, by decide⟩

/-- Helper: objects kept because they do not match the pattern can never
match the pattern afterwards. -/
theorem filter_not_filter (p : String → Bool) :
    ∀ l : List String, (l.filter (fun n => !p n)).filter p = [] := by
  intro l
  induction l with
  | nil => rfl
  | cons a l ih =>
    cases h : p a with
    | true => simp [List.filter_cons, h, ih]
    | false => simp [List.filter_cons, h, ih]

/-- Helper: when no raw object matches the archive pattern, the archive
run reports `ok`, moves zero objects, and leaves the storage unchanged. -/
theorem archiveRun_no_match (st : GcsState)
    (h : st.raw.filter archiveSrcMatches = []) :
    archiveRun st = (st, .ok, 0) := by
  have hall : ∀ a ∈ st.raw, ¬(archiveSrcMatches a = true) := by
    rw [List.filter_eq_nil_iff] at h
    exact h
  have hraw : st.raw.filter (fun n => !archiveSrcMatches n) = st.raw := by
    refine List.filter_eq_self.mpr ?_
    intro a ha
    have hfa : archiveSrcMatches a = false := Bool.eq_false_iff.mpr (hall a ha)
    simp [hfa]
  simp [archiveRun, h, hraw]

/-- C3: re-running the archive step after a prior successful archive is
an idempotent no-op: any run with zero matching source objects returns
`ok` with zero objects moved and leaves storage unchanged, and a second
archive run straight after a first one always does exactly that. -/
theorem C3_archive_idempotent :
    (∀ st : GcsState, st.raw.filter archiveSrcMatches = [] →
      archiveRun st = (st, .ok, 0)) ∧
    (∀ st : GcsState,
      archiveRun (archiveRun st).1 = ((archiveRun st).1, .ok, 0)) :=
  ⟨fun st h => archiveRun_no_match st h,
   fun st => archiveRun_no_match _
     (show (st.raw.filter (fun n => !archiveSrcMatches n)).filter archiveSrcMatches = []
       from filter_not_filter archiveSrcMatches st.raw)⟩

/-- C3 witness: a raw bucket holding only a non-.csv object (already past
a successful archive) archives to `ok` with zero objects moved. -/
theorem C3_archive_idempotent_witness :
    archiveRun ⟨["input_data/logistics_day1.txt"], ["input_data/logistics_day0.csv"]⟩ =
      (⟨["input_data/logistics_day1.txt"], ["input_data/logistics_day0.csv"]⟩, .ok, 0) :=
  C3_archive_idempotent.1 _ (by decide)

/-- C6 counterexample: after a full successful prior execution (database,
both tables created, 3 source rows loaded so 3 partitioned rows),
re-running the load step's body (INSERT INTO) does not leave the state of
a single successful execution: it appends the 3 source rows again. -/
theorem C6_counterexample :
    loadPartitionedEffect
        ⟨["logistics_db"], ["logistics_db.logistics_data"],
         ["logistics_db.logistics_data_partitioned"], 3, 3⟩ ≠
      ⟨["logistics_db"], ["logistics_db.logistics_data"],
       ["logistics_db.logistics_data_partitioned"], 3, 3⟩ := by
  decide

/-- C6 (amended): the three create steps are idempotent thanks to their
IF NOT EXISTS guards, but the load step's INSERT INTO is idempotent only
when the source table is empty: re-running it appends the selected rows
again. -/
theorem C6_amended_step_idempotence :
    (∀ s : HiveState,
      createDatabaseEffect (createDatabaseEffect s) = createDatabaseEffect s) ∧
    (∀ s : HiveState,
      createTableEffect (createTableEffect s) = createTableEffect s) ∧
    (∀ s : HiveState,
      createPartitionedEffect (createPartitionedEffect s) = createPartitionedEffect s) ∧
    (∀ s : HiveState,
      loadPartitionedEffect (loadPartitionedEffect s) = loadPartitionedEffect s ↔
        s.sourceRows = 0) := by
  refine ⟨?_, ?_, ?_, ?_⟩
  · intro s
    by_cases h : "logistics_db" ∈ s.databases
    · simp [createDatabaseEffect, h]
    · simp [createDatabaseEffect, h]
  · intro s
    by_cases h : "logistics_db.logistics_data" ∈ s.tables
    · simp [createTableEffect, h]
    · simp [createTableEffect, h]
  · intro s
    by_cases h : "logistics_db.logistics_data_partitioned" ∈ s.partTables
    · simp [createPartitionedEffect, h]
    · simp [createPartitionedEffect, h]
  · intro s
    constructor
    · intro h
      have hp := congrArg HiveState.partRows h
      simp [loadPartitionedEffect] at hp
      omega
    · intro h
      simp [loadPartitionedEffect, h]

/-- C6 amended witness: idempotence of the create-database step on the
empty warehouse, and the load step on a state with no source rows. -/
theorem C6_amended_step_idempotence_witness :
    createDatabaseEffect (createDatabaseEffect ⟨[], [], [], 0, 0⟩) =
      createDatabaseEffect ⟨[], [], [], 0, 0⟩ ∧
    loadPartitionedEffect (loadPartitionedEffect ⟨[], [], [], 0, 5⟩) =
      loadPartitionedEffect ⟨[], [], [], 0, 5⟩ :=
  ⟨C6_amended_step_idempotence.1 _,
   (C6_amended_step_idempotence.2.2.2 _).mpr rfl⟩

/-- C10: every object the archive pattern moves also satisfies the sense
condition, but not conversely: an object with the sensed prefix and no
.csv suffix is sensed yet matched by the archive pattern zero times. -/
theorem C10_archive_pattern_strict_subset :
    (∀ n : String, archiveSrcMatches n = true → senseMatches n = true) ∧
    senseMatches "input_data/logistics_day1.txt" = true ∧
    archiveSrcMatches "input_data/logistics_day1.txt" = false ∧
    (["input_data/logistics_day1.txt"].filter archiveSrcMatches).length = 0 := by
  refine ⟨?_, by decide, by decide, by decide⟩
  intro n h
  unfold archiveSrcMatches at h
  unfold senseMatches
  simp only [Bool.and_eq_true] at h
  exact h.1.1.1

/-- C10 witness: a .csv object with the sensed prefix is matched by the
archive pattern and hence also by the sense condition. -/
theorem C10_archive_pattern_strict_subset_witness :
    senseMatches "input_data/logistics_day0.csv" = true :=
  C10_archive_pattern_strict_subset.1 "input_data/logistics_day0.csv" (by decide)
